import Mathlib

/-!
Verification of the rreplay coordinator (`src/rreplay.py`).

The Python source is shallowly embedded: each relevant function is
translated into an executable Lean definition.  Python exceptions are
modelled with explicit error values, the filesystem is modelled as the
list of existing paths, external processes (the replay engine, the
injectors, the liveness oracle) are modelled by oracle functions bundled
into an `Env`/`Oracle` record, and the non-termination of a source-level
busy loop is modelled by `Option`/`RunResult.hang` (plus a fuel-indexed
iteration model where the claim is about the loop literally never
returning).
-/

set_option linter.unusedVariables false

namespace RReplay

/-- Python exception classes that the embedded code can raise. -/
inductive PyError where
  | ioError
  | indexError
  | typeError
  | valueError
  | noOptionError
  | osError
  deriving DecidableEq, Repr

/-- Result of running a piece of the Python program: normal value,
raised exception, `sys.exit(code)` (a `SystemExit`, which the top-level
`except Exception` does not catch), or non-termination of a busy loop. -/
inductive RunResult (α : Type) where
  | ok (a : α)
  | exc (e : PyError)
  | exit (code : Int)
  | hang
  deriving DecidableEq, Repr

/-- A minimal JSON value model, enough for the state files the dispatch
loop reads and rewrites with `json.load` / `json.dump`. -/
inductive JValue where
  | str (s : String)
  | num (n : Int)
  | arr (elems : List JValue)
  | obj (fields : List (String × JValue))

/-- Observable side effects of the coordinator, recorded as a trace. -/
inductive Action where
  | print (s : String)
  | fileRead (path : String)
  | fileWrite (path : String) (content : JValue)
  | spawn (cmd : List String)
  | kill (pid : String)

/-- One configured injection opportunity, the dict built per INI section
in `get_configuration`.  Keys that a Python dict may lack (`pid`,
`handle`, the optional config keys) are `Option`s.  The `handle` Popen
object is modelled by the exit status its `wait()` will eventually
return (external nondeterminism, supplied by the spawn oracle). -/
structure Subject where
  event : String
  rec_pid : String
  trace_file : String
  trace_start : String
  trace_end : String
  injected_state_file : String
  other_procs : List String
  mmap_backing_files : Option String
  checker : Option String
  mutator : Option String
  pid : Option String
  handle : Option Int
  deriving DecidableEq, Repr

/-! ## Shared artifact paths and cleanup

`consts.py` is not part of this repository's sources.  Modelled from the
spec: "one shared output log path, one named-pipe path, both
process-wide constants"; `cleanup`'s own debug messages name them
`proc.out` and `rrdump_proc.pipe`, and the interrupt handler opens the
literal path `'proc.out'`. -/

/-- Modelled from the spec: the shared output log path constant
`consts.PROC_FILE` (missing `consts` module); the source names it
`proc.out` in its cleanup debug message and interrupt handler. -/
def PROC_FILE : String := "proc.out"

/-- Modelled from the spec: the named pipe path constant
`consts.RR_PIPE` (missing `consts` module); the source names it
`rrdump_proc.pipe` in its cleanup debug message. -/
def RR_PIPE : String := "rrdump_proc.pipe"

/-- The filesystem, modelled as the list of existing paths. -/
abbrev Fs := List String

/-- `os.unlink`: removes the path, raises `OSError` if it is absent. -/
def pyUnlink (p : String) (fs : Fs) : Except PyError Fs :=
  if p ∈ fs then .ok (fs.filter (fun q => ¬ q = p)) else .error .osError

/-- `cleanup()` (rreplay.py lines 299-318): delete the output file and
the pipe, each guarded by an existence check. -/
def cleanup (fs : Fs) : Except PyError Fs :=
  match (if PROC_FILE ∈ fs then pyUnlink PROC_FILE fs else .ok fs) with
  | .error e => .error e
  | .ok fs1 =>
    match (if RR_PIPE ∈ fs1 then pyUnlink RR_PIPE fs1 else .ok fs1) with
    | .error e => .error e
    | .ok fs2 => .ok fs2

/-- The filesystem left behind by a (never-failing) `cleanup` run. -/
def cleanupFs (fs : Fs) : Fs :=
  (fs.filter (fun q => ¬ q = PROC_FILE)).filter (fun q => ¬ q = RR_PIPE)

/-! ## Pipe reader

`get_message` (rreplay.py lines 43-69).  The pipe's byte stream is
modelled as the list of characters the producer will ever deliver; a
`read(1)` past the end returns the empty string (end-of-input).  The
source loop `buf += read(1); if buf == '': return ''; if buf[-1] ==
'\n': return buf` is embedded structurally on the remaining stream;
`none` models the source loop never returning (at end-of-input with a
non-empty, newline-free buffer no exit condition can ever fire, so the
loop spins forever). -/

/-- The read loop of `get_message`, with the accumulated buffer made
explicit.  Returns the line (a `String`, as the source builds) plus the
unconsumed stream; `none` models non-termination. -/
def getMessageAux : List Char → List Char → Option (String × List Char)
  | buf, [] =>
    -- read(1) returns '': buf is unchanged; `buf == ''` then `buf[-1]`
    if buf = [] then some ("", [])
    else if buf.getLast? = some '\n' then some (buf.asString, [])
    else none
  | buf, c :: rest =>
    if c = '\n' then some ((buf ++ [c]).asString, rest)
    else getMessageAux (buf ++ [c]) rest

/-- `get_message`: read one line from the pipe (buffer starts empty). -/
def get_message (stream : List Char) : Option (String × List Char) :=
  getMessageAux [] stream

/-- The same read loop indexed by the number of iterations executed so
far: `none` at fuel 0 means "still running after that many iterations".
Used to state that on a partial final line the loop is still running
after every number of iterations. -/
def getMessageIter : Nat → List Char → List Char → Option (String × List Char)
  | 0, _, _ => none
  | n + 1, buf, [] =>
    if buf = [] then some ("", [])
    else if buf.getLast? = some '\n' then some (buf.asString, [])
    else getMessageIter n buf []
  | n + 1, buf, c :: rest =>
    if c = '\n' then some ((buf ++ [c]).asString, rest)
    else getMessageIter n (buf ++ [c]) rest

/-! ## Configuration loading

`get_configuration` (rreplay.py lines 75-155).  The external
`ConfigParser` output is modelled as the ordered list of INI sections,
each an ordered association list of key/value pairs; `cfg.get` raising
`NoOptionError` on a missing key becomes an `Option` lookup. -/

/-- One parsed INI section: its name and its key/value pairs. -/
structure IniSection where
  name : String
  entries : List (String × String)
  deriving DecidableEq, Repr

/-- `cfg.get(section, key)`: first value bound to `key`. -/
def IniSection.get (sec : IniSection) (key : String) : Option String :=
  (sec.entries.find? (fun kv => kv.1 = key)).map (fun kv => kv.2)

/-- Decimal digit accumulator: `none` as soon as a non-digit shows. -/
def digitsToNat : Nat → List Char → Option Nat
  | acc, [] => some acc
  | acc, c :: rest =>
    if c.isDigit then digitsToNat (acc * 10 + (c.toNat - 48)) rest else none

/-- Python `int()` on the optionally-signed decimal strings the configs
and pipe messages use (`int` also tolerates surrounding whitespace and
a leading `+`, which never occur here). -/
def pyInt (s : String) : Option Int :=
  match s.data with
  | [] => none
  | '-' :: rest =>
    if rest = [] then none
    else (digitsToNat 0 rest).map (fun n => -(n : Int))
  | cs => (digitsToNat 0 cs).map (fun n => (n : Int))

/-- The sort key `_sort_by_event`: `int(sub['event'])`.  The `getD 0`
default is never exercised by `get_configuration`, which raises
`ValueError` (via the key function) when some event is non-numeric. -/
def eventKey (s : Subject) : Int := (pyInt s.event).getD 0

/-- The subject order used everywhere: ascending numeric `event`. -/
def subjLE (a b : Subject) : Prop := eventKey a ≤ eventKey b

instance : DecidableRel subjLE := fun a b => by
  unfold subjLE; infer_instance

instance : IsTotal Subject subjLE := ⟨fun a b => Int.le_total _ _⟩

instance : IsTrans Subject subjLE := ⟨fun _ _ _ => Int.le_trans⟩

/-- `subjects.sort(key=_sort_by_event)`: Python's `list.sort` is a
stable ascending sort by the key, which insertion sort implements. -/
def sortSubjects (subjects : List Subject) : List Subject :=
  List.insertionSort subjLE subjects

/-- Parsing of one subject section (the loop body, lines 118-148). -/
def parseSubject (sec : IniSection) : Except PyError Subject :=
  match sec.get "event", sec.get "pid", sec.get "trace_file",
      sec.get "trace_start", sec.get "trace_end" with
  | some ev, some pid, some tf, some ts, some te =>
    .ok { event := ev
          rec_pid := pid
          trace_file := tf
          trace_start := ts
          trace_end := te
          injected_state_file := ev ++ "_state.json"
          other_procs := []
          -- the three optional keys are wrapped in try/except NoOptionError
          mmap_backing_files := sec.get "mmap_backing_files"
          checker := sec.get "checker"
          mutator := sec.get "mutator"
          pid := none
          handle := none }
  | _, _, _, _, _ => .error .noOptionError  -- a required cfg.get raised

/-- The subject-parsing loop over the remaining sections. -/
def parseSubjects : List IniSection → Except PyError (List Subject)
  | [] => .ok []
  | sec :: rest =>
    match parseSubject sec with
    | .error e => .error e
    | .ok s =>
      match parseSubjects rest with
      | .error e => .error e
      | .ok ss => .ok (s :: ss)

/-- `get_configuration` on the parsed INI (`readable` models whether
`cfg.read` found the file; `raise IOError` otherwise).  Returns the
replay directory and the event-sorted subject list, or the
`sys.exit(0)` taken when no subject sections exist. -/
def get_configuration (readable : Bool) (sections : List IniSection) :
    RunResult (String × List Subject) :=
  if ¬ readable then .exc .ioError
  else
    match sections with
    | [] => .exc .indexError   -- sections[0]
    | dirSec :: rest =>
      match dirSec.get "rr_dir" with
      | none => .exc .noOptionError
      | some rr_dir =>
        if rest = [] then
          -- print(...); sys.exit(0)
          .exit 0
        else
          match parseSubjects rest with
          | .error e => .exc e
          | .ok subjects =>
            if subjects.all (fun s => (pyInt s.event).isSome) then
              .ok (rr_dir, sortSubjects subjects)
            else .exc .valueError   -- int() in the sort key raised

/-- Strict version of the subject order; antisymmetric, which is what
uniqueness of the sorted output needs. -/
def subjLT (a b : Subject) : Prop := eventKey a < eventKey b

/-! ## Dispatch loop

`process_messages` (rreplay.py lines 194-254). -/

/-- Python `str.split(sep)` with a one-character separator: split at
every occurrence, keeping empty fields (`"a  b".split(' ') ==
['a', '', 'b']`). -/
def pySplit (sep : Char) : List Char → List String
  | [] => [""]
  | c :: rest =>
    match pySplit sep rest with
    | [] => []   -- unreachable: the result is never empty
    | p :: ps =>
      if c = sep then "" :: p :: ps
      else (String.singleton c ++ p) :: ps

/-- Python `str.strip()`: drop surrounding whitespace. -/
def pyStrip (s : String) : String :=
  (((s.data.dropWhile Char.isWhitespace).reverse.dropWhile
    Char.isWhitespace).reverse).asString

/-- Message field extraction (lines 218-221):
`parts = message.split(' '); inject = parts[0].strip()[:-1];
event = parts[2]; pid = parts[4]`.  Indexing past the end raises
`IndexError`. -/
def parseMessage (message : String) : Except PyError (String × String × String) :=
  let parts := pySplit ' ' message.data
  match parts.get? 0, parts.get? 2, parts.get? 4 with
  | some p0, some p2, some p4 => .ok ((pyStrip p0).dropRight 1, p2, p4)
  | _, _, _ => .error .indexError

/-- External collaborators of the dispatch loop:
`stateContents path` is the JSON object that `json.load` returns for a
state file (the files are produced externally and are JSON objects);
`alive pid` is whether `util.process_is_alive(pid)` ever becomes true
(the loop busy-waits on it, printing `waiting...`, and hangs forever
otherwise); `injectStatus path` is the exit status the spawned injector
will eventually return, recorded as the subject's `handle`. -/
structure Oracle where
  stateContents : String → List (String × JValue)
  alive : String → Bool
  injectStatus : String → Int

/-- Python dict assignment `d[k] = v`: replace the value in place if
the key exists, otherwise add the binding. -/
def pySetKey (k : String) (v : JValue) :
    List (String × JValue) → List (String × JValue)
  | [] => [(k, v)]
  | (k', v') :: rest =>
    if k' = k then (k', v) :: rest else (k', v') :: pySetKey k v rest

/-- `json.dump` view of a subject dict.  Optional keys are omitted when
absent, as in the Python dict.  A subject carrying a `handle` (a Popen
object) is not JSON-serializable; `process_one_message` raises
`TypeError` before ever calling this in that case. -/
def subjectToJson (s : Subject) : JValue :=
  .obj ([("event", .str s.event),
         ("rec_pid", .str s.rec_pid),
         ("trace_file", .str s.trace_file),
         ("trace_start", .str s.trace_start),
         ("trace_end", .str s.trace_end),
         ("injected_state_file", .str s.injected_state_file),
         ("other_procs", .arr (s.other_procs.map JValue.str))]
    ++ (match s.mmap_backing_files with
        | some v => [("mmap_backing_files", JValue.str v)]
        | none => [])
    ++ (match s.checker with
        | some v => [("checker", JValue.str v)]
        | none => [])
    ++ (match s.mutator with
        | some v => [("mutator", JValue.str v)]
        | none => [])
    ++ (match s.pid with
        | some v => [("pid", JValue.str v)]
        | none => []))

/-- In-place mutation of the first subject whose `event` equals `ev`
(the object `operating[0]` aliases into the `subjects` list). -/
def updateFirstMatch (ev : String) (f : Subject → Subject) :
    List Subject → List Subject
  | [] => []
  | x :: xs =>
    if x.event = ev then f x :: xs else x :: updateFirstMatch ev f xs

/-- The body of the `while message != ''` loop for one message
(lines 217-251): parse the fields, busy-wait for the reported pid,
select `operating[0]`, and run the INJECT / DONT_INJECT branch.
Returns the updated subject list and the trace of visible actions. -/
def process_one_message (o : Oracle) (subjects : List Subject)
    (message : String) : RunResult (List Subject × List Action) :=
  match parseMessage message with
  | .error e => .exc e
  | .ok (inject, event, pid) =>
    if ¬ o.alive pid then .hang   -- while not util.process_is_alive(pid)
    else
      match subjects.filter (fun x => x.event = event) with
      | [] => .exc .indexError    -- s = operating[0] on an empty list
      | s :: _ =>
        if inject = "INJECT" then
          if s.handle.isSome then
            -- json.dump cannot serialize the Popen stored in s['handle']
            .exc .typeError
          else
            let sWithPid := { s with pid := some pid }
            let content := JValue.obj
              (pySetKey "config" (subjectToJson sWithPid)
                (o.stateContents s.injected_state_file))
            let sDone := { sWithPid with
              handle := some (o.injectStatus s.injected_state_file) }
            .ok (updateFirstMatch event (fun _ => sDone) subjects,
              [.fileRead s.injected_state_file,
               .fileWrite s.injected_state_file content,
               .spawn ["inject", "--verbosity=40", s.injected_state_file]])
        else if inject = "DONT_INJECT" then
          .ok (updateFirstMatch event
            (fun x => { x with other_procs := x.other_procs ++ [pid] }) subjects, [])
        else
          .ok (subjects, [])      -- neither branch taken

/-- `process_messages`: read lines until `get_message` returns the
empty string, handling each line in arrival order. -/
def process_messages (o : Oracle) (subjects : List Subject)
    (stream : List Char) : RunResult (List Subject × List Action) :=
  match h : get_message stream with
  | none => .hang
  | some (message, rest) =>
    if hm : message = "" then .ok (subjects, [])
    else
      match process_one_message o subjects message with
      | .exc e => .exc e
      | .exit c => .exit c
      | .hang => .hang
      | .ok (subjects', acts) =>
        match process_messages o subjects' rest with
        | .ok (subjectsEnd, acts') => .ok (subjectsEnd, acts ++ acts')
        | r => r
  termination_by stream.length
  decreasing_by
    -- a successful non-empty read consumed at least its terminator
    have aux : ∀ (s buf : List Char) (m : String) (r : List Char),
        getMessageAux buf s = some (m, r) → r.length ≤ s.length := by
      intro s
      induction s with
      | nil =>
        intro buf m r hx
        simp only [getMessageAux] at hx
        by_cases hb : buf = []
        · rw [if_pos hb] at hx; cases hx; exact Nat.le_refl _
        · rw [if_neg hb] at hx
          by_cases hl : buf.getLast? = some '\n'
          · rw [if_pos hl] at hx; cases hx; exact Nat.le_refl _
          · rw [if_neg hl] at hx; cases hx
      | cons c cs ih =>
        intro buf m r hx
        simp only [getMessageAux] at hx
        by_cases hc : c = '\n'
        · rw [if_pos hc] at hx
          cases hx
          exact Nat.le_succ _
        · rw [if_neg hc] at hx
          exact Nat.le_trans (ih _ m r hx) (Nat.le_succ _)
    cases stream with
    | nil =>
      unfold get_message getMessageAux at h
      rw [if_pos rfl] at h
      exact absurd (congrArg Prod.fst (Option.some.inj h)).symm hm
    | cons c cs =>
      unfold get_message at h
      simp only [getMessageAux] at h
      by_cases hc : c = '\n'
      · rw [if_pos hc] at h
        cases h
        exact Nat.lt_succ_self _
      · rw [if_neg hc] at h
        exact Nat.lt_succ_of_le (aux cs _ message rest h)

/-! ## Process supervisor

`wait_on_handles` (rreplay.py lines 260-293). -/

/-- Python list indexing with a *string* index, as written on line 284:
`s['other_procs'][i]` where `i` ranges over the **elements** (pid
strings) of `other_procs`, not over integer positions.  A `list`
indexed by a `str` unconditionally raises `TypeError` in Python 2. -/
def pyListIndexStr (l : List String) (i : String) : Except PyError String :=
  .error .typeError

/-- The `for i in s['other_procs']` kill loop (lines 283-288).  Each
iteration first evaluates the eagerly-formatted debug argument
`s['other_procs'][i]` (which raises `TypeError`, see
`pyListIndexStr`); only then would it reach
`os.kill(int(i), signal.SIGKILL)` wrapped in `except OSError: pass`
(so a kill on an already-exited process is silently tolerated). -/
def killOtherProcs (procs : List String) : List String → List Action × Option PyError
  | [] => ([], none)
  | i :: rest =>
    match pyListIndexStr procs i with
    | .error e => ([], some e)
    | .ok _ =>
      let (acts, err) := killOtherProcs procs rest
      (.kill i :: acts, err)

/-- `wait_on_handles`: iterate the subjects in list order; wait on the
handle (or report a missing one), kill the skipped pids, report a
non-zero injector status.  Returns the subjects actually visited (in
visiting order), the action trace, and the exception that aborted the
loop, if any. -/
def wait_on_handles : List Subject → List Subject × List Action × Option PyError
  | [] => ([], [], none)
  | s :: rest =>
    let (ret, actsWait) : Int × List Action :=
      match s.handle with
      | some code => (code, [])   -- ret = s['handle'].wait()
      | none => (-1, [.print ("No handle associated with subject " ++ s.event)])
    match killOtherProcs s.other_procs s.other_procs with
    | (actsKill, some e) => ([s], actsWait ++ actsKill, some e)
    | (actsKill, none) =>
      let actsRet :=
        if ret ≠ 0 then
          [Action.print ("Injector for event:rec_pid " ++ s.event ++ ":"
            ++ s.rec_pid ++ " failed")]
        else []
      let (visited, acts, err) := wait_on_handles rest
      (s :: visited, actsWait ++ actsKill ++ actsRet ++ acts, err)

/-! ## Replay launcher and top-level orchestration

`execute_rr` (lines 161-188), `main` (lines 324-361) and the
`__main__` exception discipline (lines 367-389). -/

/-- The `'<rec_pid>:<event>,'` event filter string. -/
def eventsStr (subjects : List Subject) : String :=
  subjects.foldl (fun acc i => acc ++ i.rec_pid ++ ":" ++ i.event ++ ",") ""

/-- Mark a path as existing (`open(path, 'w')` creates the file). -/
def addPath (p : String) (fs : Fs) : Fs := if p ∈ fs then fs else p :: fs

/-- `execute_rr`: create/truncate the shared log and spawn the replay
engine, fire-and-forget. -/
def execute_rr (rr_dir : String) (subjects : List Subject) (fs : Fs) :
    Fs × Action :=
  (addPath PROC_FILE fs,
    .spawn ["rr", "replay", "-a", "-n", eventsStr subjects, rr_dir])

/-- The point in `main` at which the `KeyboardInterrupt` is delivered
(interrupts are modelled at phase boundaries: just before the named
step runs). -/
inductive Phase where
  | precleanup
  | testCheck
  | loadConfig
  | launchReplay
  | dispatch
  | supervise
  | postcleanup
  deriving DecidableEq, Repr

/-- Everything external that one run of the program observes. -/
structure Env where
  /-- Paths existing when the program starts. -/
  fs0 : Fs
  /-- Whether `consts.DEFAULT_CONFIG_PATH + testname` exists. -/
  testDirExists : Bool
  /-- Whether `cfg.read` could read the INI file. -/
  configReadable : Bool
  /-- The parsed INI sections. -/
  sections : List IniSection
  /-- Whether the replay engine ever creates the named pipe
  (`get_message` busy-waits on its existence before the first read). -/
  pipeAppears : Bool
  /-- The bytes the pipe delivers before the producer closes it. -/
  stream : List Char
  /-- The dispatch-loop collaborators. -/
  oracle : Oracle
  /-- When, if ever, the user sends SIGINT. -/
  interruptAt : Option Phase

/-- What one run of the program amounts to. -/
structure TopOutcome where
  exitCode : Int
  /-- Whether the interrupt handler dumped `proc.out` to the console. -/
  dumped : Bool
  /-- Whether `cleanup()` ran on the exit path (interrupt handler,
  generic handler, or normal post-cleanup). -/
  cleanupOnExit : Bool
  /-- Whether `execute_rr` was invoked. -/
  replayLaunched : Bool
  /-- Whether the zero-subjects report was printed. -/
  reportedNoOpp : Bool
  finalFs : Fs
  deriving DecidableEq, Repr

/-- The `except KeyboardInterrupt` handler (lines 374-383): open the
literal path `'proc.out'`, print its contents, run `cleanup()`, and
`sys.exit(0)`.  When `proc.out` does not exist the `open` raises an
`IOError` *inside* the handler; nothing catches it, so the interpreter
exits with status 1 without dumping or cleaning up. -/
def interruptHandler (fs : Fs) (launched : Bool) : TopOutcome :=
  if "proc.out" ∈ fs then
    { exitCode := 0
      dumped := true
      cleanupOnExit := true
      replayLaunched := launched
      reportedNoOpp := false
      finalFs := cleanupFs fs }
  else
    { exitCode := 1
      dumped := false
      cleanupOnExit := false
      replayLaunched := launched
      reportedNoOpp := false
      finalFs := fs }

/-- The generic `except Exception` handler (lines 387-389):
`cleanup(); sys.exit(1)`. -/
def catchAllHandler (fs : Fs) (launched : Bool) : TopOutcome :=
  { exitCode := 1
    dumped := false
    cleanupOnExit := true
    replayLaunched := launched
    reportedNoOpp := false
    finalFs := cleanupFs fs }

/-- `main()` wrapped in the `__main__` try/except.  `none` models the
program never terminating (a busy-wait that can never succeed).
`sys.exit(n)` raises `SystemExit`, which neither `except
KeyboardInterrupt` nor `except Exception` catches, so it reaches the
interpreter directly with code `n`. -/
def runMain (env : Env) : Option TopOutcome :=
  -- cleanup() -- the pre-cleanup pass
  if env.interruptAt = some Phase.precleanup then
    some (interruptHandler env.fs0 false)
  else
    let fs1 := cleanupFs env.fs0
    -- if not os.path.exists(test_dir): print(...); sys.exit(1)
    if env.interruptAt = some Phase.testCheck then
      some (interruptHandler fs1 false)
    else if ¬ env.testDirExists then
      some { exitCode := 1, dumped := false, cleanupOnExit := false,
             replayLaunched := false, reportedNoOpp := false, finalFs := fs1 }
    else
    -- rr_dir, subjects = get_configuration(...)
    if env.interruptAt = some Phase.loadConfig then
      some (interruptHandler fs1 false)
    else
      match get_configuration env.configReadable env.sections with
      | .hang => none
      | .exit c =>
        -- the zero-subjects sys.exit(0), after its report was printed
        some { exitCode := c, dumped := false, cleanupOnExit := false,
               replayLaunched := false, reportedNoOpp := true, finalFs := fs1 }
      | .exc _ => some (catchAllHandler fs1 false)
      | .ok (rr_dir, subjects) =>
        -- execute_rr(rr_dir, subjects)
        if env.interruptAt = some Phase.launchReplay then
          some (interruptHandler fs1 false)
        else
          let (fs2, _) := execute_rr rr_dir subjects fs1
          -- process_messages(subjects)
          if env.interruptAt = some Phase.dispatch then
            some (interruptHandler fs2 true)
          else if ¬ env.pipeAppears then
            none   -- get_message spins forever waiting for the pipe
          else
            let fs3 := addPath RR_PIPE fs2   -- the engine created the pipe
            match process_messages env.oracle subjects env.stream with
            | .hang => none
            | .exit c =>
              some { exitCode := c, dumped := false, cleanupOnExit := false,
                     replayLaunched := true, reportedNoOpp := false,
                     finalFs := fs3 }
            | .exc _ => some (catchAllHandler fs3 true)
            | .ok (subjects', _) =>
              -- wait_on_handles(subjects)
              if env.interruptAt = some Phase.supervise then
                some (interruptHandler fs3 true)
              else
                match wait_on_handles subjects' with
                | (_, _, some _) => some (catchAllHandler fs3 true)
                | (_, _, none) =>
                  -- cleanup(); then main returns and sys.exit(0)
                  if env.interruptAt = some Phase.postcleanup then
                    some (interruptHandler fs3 true)
                  else
                    some { exitCode := 0, dumped := false,
                           cleanupOnExit := true, replayLaunched := true,
                           reportedNoOpp := false, finalFs := cleanupFs fs3 }

/-! ## Concrete inputs used by witnesses and counterexamples -/

/-- A subject as `get_configuration` builds it, for concrete runs. -/
def mkSubject (ev pid : String) : Subject :=
  { event := ev
    rec_pid := pid
    trace_file := "tf"
    trace_start := "0"
    trace_end := "9"
    injected_state_file := ev ++ "_state.json"
    other_procs := []
    mmap_backing_files := none
    checker := none
    mutator := none
    pid := none
    handle := none }

/-- A subject that finished its injector (status 0) and skipped
pid 100: the supervisor's kill loop will run on it. -/
def subjC2 : Subject :=
  { mkSubject "3" "200" with other_procs := ["100"], handle := some 0 }

/-- Benign collaborators for concrete runs: state files hold an empty
JSON object, every reported pid is alive, injectors exit 0. -/
def oracleW : Oracle :=
  { stateContents := fun _ => []
    alive := fun _ => true
    injectStatus := fun _ => 0 }

/-- The directory declaration section of a config. -/
def dirSecW : IniSection := { name := "rr_dir", entries := [("rr_dir", "/tmp/rr")] }

/-- A subject section with the five required keys. -/
def subjSec (ev pid : String) : IniSection :=
  { name := "sec" ++ ev
    entries := [("event", ev), ("pid", pid), ("trace_file", "tf"),
                ("trace_start", "0"), ("trace_end", "9")] }

/-- A run interrupted between the pre-cleanup pass and replay launch:
the shared log does not exist when the interrupt handler runs. -/
def envC1bad : Env :=
  { fs0 := []
    testDirExists := true
    configReadable := true
    sections := [dirSecW, subjSec "3" "200"]
    pipeAppears := true
    stream := []
    oracle := oracleW
    interruptAt := some Phase.loadConfig }

/-- The same run interrupted during dispatch instead, after
`execute_rr` created the shared log. -/
def envC1ok : Env :=
  { envC1bad with interruptAt := some Phase.dispatch }

/-- A run whose configuration has only the directory declaration. -/
def envC5W : Env :=
  { fs0 := ["stale.txt"]
    testDirExists := true
    configReadable := true
    sections := [dirSecW]
    pipeAppears := true
    stream := []
    oracle := oracleW
    interruptAt := none }

/-- A well-formed INJECT message for event 7, which no configured
subject carries. -/
def streamC10 : List Char :=
  ("INJECT: EVENT: 7 PID: 100 REC_PID: 200" ++ "\n").data

/-- A run that receives `streamC10` while only event 3 is
configured. -/
def envC10W : Env :=
  { fs0 := []
    testDirExists := true
    configReadable := true
    sections := [dirSecW, subjSec "3" "200"]
    pipeAppears := true
    stream := streamC10
    oracle := oracleW
    interruptAt := none }

/-! ## Helper lemmas -/

theorem filter_ne_eq_self {p : String} {fs : Fs} (h : p ∉ fs) :
    fs.filter (fun q => ¬ q = p) = fs :=
  List.filter_eq_self.mpr (fun a ha => by
    simp only [decide_eq_true_eq]
    rintro rfl
    exact h ha)

theorem not_mem_filter_ne (p : String) (fs : Fs) :
    p ∉ fs.filter (fun q => ¬ q = p) := by
  intro h
  have := List.of_mem_filter h
  simp at this

theorem guarded_unlink (p : String) (fs : Fs) :
    (if p ∈ fs then pyUnlink p fs else .ok fs) =
      .ok (fs.filter (fun q => ¬ q = p)) := by
  by_cases h : p ∈ fs
  · simp [pyUnlink, h]
  · rw [if_neg h, filter_ne_eq_self h]

theorem cleanup_eq_ok (fs : Fs) : cleanup fs = .ok (cleanupFs fs) := by
  simp only [cleanup, guarded_unlink, cleanupFs]

theorem not_mem_cleanupFs_proc (fs : Fs) : PROC_FILE ∉ cleanupFs fs := by
  intro h
  exact not_mem_filter_ne PROC_FILE fs (List.mem_of_mem_filter h)

theorem not_mem_cleanupFs_pipe (fs : Fs) : RR_PIPE ∉ cleanupFs fs :=
  not_mem_filter_ne RR_PIPE _

theorem cleanupFs_idem (fs : Fs) : cleanupFs (cleanupFs fs) = cleanupFs fs := by
  calc cleanupFs (cleanupFs fs)
      = ((cleanupFs fs).filter (fun q => ¬ q = PROC_FILE)).filter
          (fun q => ¬ q = RR_PIPE) := rfl
    _ = (cleanupFs fs).filter (fun q => ¬ q = RR_PIPE) := by
          rw [filter_ne_eq_self (not_mem_cleanupFs_proc fs)]
    _ = cleanupFs fs := filter_ne_eq_self (not_mem_cleanupFs_pipe fs)

theorem asString_ne_empty {l : List Char} (h : l ≠ []) : l.asString ≠ "" := by
  intro hc
  apply h
  have : (l.asString).data = ("" : String).data := by rw [hc]
  simpa [List.asString] using this

/-- Reading a stream that starts with a complete line returns exactly
that line, terminator included. -/
theorem getMessageAux_line (l : List Char) :
    ∀ (buf rest : List Char), '\n' ∉ l →
      getMessageAux buf (l ++ '\n' :: rest) =
        some ((buf ++ l ++ ['\n']).asString, rest) := by
  induction l with
  | nil => intro buf rest _; simp [getMessageAux]
  | cons c cs ih =>
    intro buf rest h
    rw [List.mem_cons, not_or] at h
    have hc : ¬ c = '\n' := fun hx => h.1 hx.symm
    calc getMessageAux buf ((c :: cs) ++ '\n' :: rest)
        = getMessageAux (buf ++ [c]) (cs ++ '\n' :: rest) := by
          simp [getMessageAux, hc]
      _ = some (((buf ++ [c]) ++ cs ++ ['\n']).asString, rest) := ih _ rest h.2
      _ = some ((buf ++ (c :: cs) ++ ['\n']).asString, rest) := by simp

/-- With a non-empty buffer the loop can never return the empty
string. -/
theorem getMessageAux_ne_empty :
    ∀ (s buf : List Char) (m : String) (rest : List Char), buf ≠ [] →
      getMessageAux buf s = some (m, rest) → m ≠ "" := by
  intro s
  induction s with
  | nil =>
    intro buf m rest hbuf h
    simp only [getMessageAux, if_neg hbuf] at h
    by_cases hl : buf.getLast? = some '\n'
    · rw [if_pos hl] at h
      cases h
      exact asString_ne_empty hbuf
    · rw [if_neg hl] at h
      cases h
  | cons c cs ih =>
    intro buf m rest hbuf h
    simp only [getMessageAux] at h
    by_cases hc : c = '\n'
    · rw [if_pos hc] at h
      cases h
      exact asString_ne_empty (by simp)
    · rw [if_neg hc] at h
      exact ih (buf ++ [c]) m rest (by simp) h

/-- `get_message` returns the empty string exactly at immediate
end-of-input. -/
theorem get_message_empty_iff (s : List Char) (m : String) (rest : List Char)
    (h : get_message s = some (m, rest)) : m = "" ↔ s = [] := by
  constructor
  · intro hm
    by_contra hs
    cases s with
    | nil => exact hs rfl
    | cons c cs =>
      subst hm
      unfold get_message at h
      simp only [getMessageAux] at h
      by_cases hc : c = '\n'
      · rw [if_pos hc] at h
        have h2 := Option.some.inj h
        exact asString_ne_empty (l := [] ++ [c]) (by simp) (congrArg Prod.fst h2)
      · rw [if_neg hc] at h
        exact getMessageAux_ne_empty cs ([] ++ [c]) "" rest (by simp) h rfl
  · intro hs
    subst hs
    unfold get_message getMessageAux at h
    rw [if_pos rfl] at h
    exact (congrArg Prod.fst (Option.some.inj h)).symm

/-- The stream left over by a successful non-empty read is strictly
shorter: each returned line consumed at least its terminator. -/
theorem getMessageAux_length :
    ∀ (s buf : List Char) (m : String) (rest : List Char),
      getMessageAux buf s = some (m, rest) → rest.length ≤ s.length := by
  intro s
  induction s with
  | nil =>
    intro buf m rest h
    simp only [getMessageAux] at h
    by_cases hb : buf = []
    · rw [if_pos hb] at h; cases h; simp
    · rw [if_neg hb] at h
      by_cases hl : buf.getLast? = some '\n'
      · rw [if_pos hl] at h; cases h; simp
      · rw [if_neg hl] at h; cases h
  | cons c cs ih =>
    intro buf m rest h
    simp only [getMessageAux] at h
    by_cases hc : c = '\n'
    · rw [if_pos hc] at h
      cases h
      simp
    · rw [if_neg hc] at h
      exact Nat.le_trans (ih _ m rest h) (by simp)

theorem get_message_consumes {s : List Char} {m : String} {rest : List Char}
    (h : get_message s = some (m, rest)) (hm : m ≠ "") :
    rest.length < s.length := by
  cases s with
  | nil =>
    unfold get_message getMessageAux at h
    simp at h
    exact absurd h.1.symm hm
  | cons c cs =>
    unfold get_message at h
    simp only [getMessageAux] at h
    by_cases hc : c = '\n'
    · rw [if_pos hc] at h
      cases h
      simp
    · rw [if_neg hc] at h
      exact Nat.lt_succ_of_le (getMessageAux_length cs _ m rest h)

theorem sortSubjects_sorted (l : List Subject) :
    List.Sorted subjLE (sortSubjects l) :=
  List.sorted_insertionSort subjLE l

theorem sortSubjects_perm (l : List Subject) : List.Perm (sortSubjects l) l :=
  List.perm_insertionSort subjLE l

theorem sorted_subjLT_of_nodup {l : List Subject}
    (hs : List.Sorted subjLE l) (hnd : (l.map eventKey).Nodup) :
    List.Sorted subjLT l := by
  have hpair : l.Pairwise (fun a b => eventKey a ≠ eventKey b) :=
    (List.pairwise_map).mp hnd
  exact (hs.and hpair).imp (fun h => lt_of_le_of_ne h.1 h.2)

/-- On inputs that are permutations of each other with pairwise
distinct numeric events, the sort result is literally the same list:
the sorted order does not depend on the input order. -/
theorem sortSubjects_perm_eq (l₁ l₂ : List Subject) (hp : List.Perm l₁ l₂)
    (hnd : (l₁.map eventKey).Nodup) :
    sortSubjects l₁ = sortSubjects l₂ := by
  haveI : IsAntisymm Subject subjLT :=
    ⟨fun a b h h' => absurd (lt_trans h h') (lt_irrefl _)⟩
  have hperm : List.Perm (sortSubjects l₁) (sortSubjects l₂) :=
    (sortSubjects_perm l₁).trans (hp.trans (sortSubjects_perm l₂).symm)
  have hnd₁ : ((sortSubjects l₁).map eventKey).Nodup :=
    (((sortSubjects_perm l₁).map eventKey).nodup_iff).mpr hnd
  have hnd₂ : ((sortSubjects l₂).map eventKey).Nodup :=
    (hperm.map eventKey).nodup_iff.mp hnd₁
  exact List.eq_of_perm_of_sorted hperm
    (sorted_subjLT_of_nodup (sortSubjects_sorted l₁) hnd₁)
    (sorted_subjLT_of_nodup (sortSubjects_sorted l₂) hnd₂)

/-- Whatever `get_configuration` returns normally is event-sorted. -/
theorem get_configuration_sorted {readable : Bool}
    {sections : List IniSection} {d : String} {subs : List Subject}
    (h : get_configuration readable sections = .ok (d, subs)) :
    List.Sorted subjLE subs := by
  unfold get_configuration at h
  by_cases hr : readable
  · rw [if_neg (by simp [hr])] at h
    match sections with
    | [] => cases h
    | dirSec :: rest =>
      simp only at h
      match hdir : dirSec.get "rr_dir" with
      | none => rw [hdir] at h; cases h
      | some rr_dir =>
        rw [hdir] at h
        simp only at h
        by_cases hrest : rest = []
        · rw [if_pos hrest] at h; cases h
        · rw [if_neg hrest] at h
          match hps : parseSubjects rest with
          | .error e => rw [hps] at h; cases h
          | .ok subjects =>
            rw [hps] at h
            simp only at h
            by_cases hall : subjects.all (fun s => (pyInt s.event).isSome)
            · rw [if_pos hall] at h
              cases h
              exact sortSubjects_sorted subjects
            · rw [if_neg hall] at h; cases h
  · rw [if_pos (by simp [hr])] at h
    cases h

theorem getMessageAux_stuck :
    ∀ (s buf : List Char), '\n' ∉ s → ¬ buf.getLast? = some '\n' →
      (¬ buf = [] ∨ ¬ s = []) → getMessageAux buf s = none := by
  intro s
  induction s with
  | nil =>
    intro buf hnl hlast hor
    have hbuf : ¬ buf = [] := hor.resolve_right (fun h => h rfl)
    simp only [getMessageAux, if_neg hbuf, if_neg hlast]
  | cons c cs ih =>
    intro buf hnl hlast hor
    rw [List.mem_cons, not_or] at hnl
    have hc : ¬ c = '\n' := fun hx => hnl.1 hx.symm
    simp only [getMessageAux, if_neg hc]
    exact ih (buf ++ [c]) hnl.2
      (by rw [List.getLast?_concat]; intro hx; exact hc (Option.some.inj hx))
      (Or.inl (by simp))

theorem getMessageIter_stuck :
    ∀ (fuel : Nat) (buf s : List Char), '\n' ∉ s →
      ¬ buf.getLast? = some '\n' → (¬ buf = [] ∨ ¬ s = []) →
      getMessageIter fuel buf s = none := by
  intro fuel
  induction fuel with
  | zero => intro buf s _ _ _; rfl
  | succ n ih =>
    intro buf s hnl hlast hor
    cases s with
    | nil =>
      have hbuf : ¬ buf = [] := hor.resolve_right (fun h => h rfl)
      simp only [getMessageIter, if_neg hbuf, if_neg hlast]
      exact ih buf [] hnl hlast (Or.inl hbuf)
    | cons c cs =>
      rw [List.mem_cons, not_or] at hnl
      have hc : ¬ c = '\n' := fun hx => hnl.1 hx.symm
      simp only [getMessageIter, if_neg hc]
      exact ih (buf ++ [c]) cs hnl.2
        (by rw [List.getLast?_concat]; intro hx; exact hc (Option.some.inj hx))
        (Or.inl (by simp))

theorem filter_event_head (ev : String) (pre rest : List Subject) (s : Subject)
    (hpre : ∀ x ∈ pre, ¬ x.event = ev) (hs : s.event = ev) :
    (pre ++ s :: rest).filter (fun x => x.event = ev) =
      s :: rest.filter (fun x => x.event = ev) := by
  rw [List.filter_append, List.filter_eq_nil_iff.mpr
    (fun a ha => by simpa using hpre a ha)]
  simp [List.filter_cons, hs]

theorem updateFirstMatch_append (ev : String) (f : Subject → Subject)
    (pre rest : List Subject) (s : Subject)
    (hpre : ∀ x ∈ pre, ¬ x.event = ev) (hs : s.event = ev) :
    updateFirstMatch ev f (pre ++ s :: rest) = pre ++ f s :: rest := by
  induction pre with
  | nil => simp [updateFirstMatch, hs]
  | cons a l ih =>
    have ha : ¬ a.event = ev := hpre a (by simp)
    simp only [List.cons_append, updateFirstMatch, if_neg ha]
    exact congrArg (List.cons a) (ih (fun x hx => hpre x (by simp [hx])))

/-! ## Claims -/

/-- C8: each call of the pipe reader accumulates bytes until a newline
and returns the whole line including the terminator; it returns the
empty string exactly when end-of-input precedes the first byte of the
call; and the dispatch loop, on receiving that empty string, terminates
immediately with no further reads. -/
theorem rreplay_c8 (l rest s : List Char) (m : String) (r : List Char)
    (o : Oracle) (subjects : List Subject) (hnl : '\n' ∉ l) :
    get_message (l ++ '\n' :: rest) = some ((l ++ ['\n']).asString, rest)
    ∧ (get_message s = some (m, r) → (m = "" ↔ s = []))
    ∧ get_message [] = some ("", [])
    ∧ process_messages o subjects [] = .ok (subjects, []) := by
  refine ⟨?_, get_message_empty_iff s m r, rfl, ?_⟩
  · have h := getMessageAux_line l [] rest hnl
    simpa [get_message] using h
  · rw [process_messages.eq_def]
    simp [get_message, getMessageAux]

/-- Witness for C8 at a concrete line and stream. -/
theorem rreplay_c8_witness :
    get_message (['h', 'i'] ++ '\n' :: ['x']) = some ("hi\n", ['x'])
    ∧ ("a\n" = "" ↔ (['a', '\n'] : List Char) = [])
    ∧ process_messages oracleW [] [] = .ok ([], []) := by
  have h := rreplay_c8 ['h', 'i'] ['x'] ['a', '\n'] "a\n" [] oracleW []
    (by decide)
  exact ⟨h.1, h.2.1 rfl, h.2.2.2⟩

/-- C7: a `DONT_INJECT` message appends the reported pid to the matched
subject's `other_procs` and changes nothing else: the returned subject
list replaces only the first subject matching the event, only in its
`other_procs` field, and the action trace of the message is empty — in
particular no subprocess is spawned. -/
theorem rreplay_c7 (o : Oracle) (pre rest : List Subject) (s : Subject)
    (msg ev pid : String)
    (hparse : parseMessage msg = .ok ("DONT_INJECT", ev, pid))
    (halive : o.alive pid = true)
    (hpre : ∀ x ∈ pre, ¬ x.event = ev) (hs : s.event = ev) :
    process_one_message o (pre ++ s :: rest) msg =
      .ok (pre ++ { s with other_procs := s.other_procs ++ [pid] } :: rest, [])
    ∧ ∀ cmd : List String, Action.spawn cmd ∉ ([] : List Action) := by
  refine ⟨?_, by simp⟩
  unfold process_one_message
  rw [hparse]
  simp only [halive]
  rw [if_neg (show ¬ ¬ True from fun h => h trivial)]
  rw [filter_event_head ev pre rest s hpre hs]
  simp only []
  rw [if_neg (show ¬ ("DONT_INJECT" : String) = "INJECT" by decide),
    if_pos trivial,
    updateFirstMatch_append ev
      (fun x => { x with other_procs := x.other_procs ++ [pid] })
      pre rest s hpre hs]

/-- Witness for C7 at a concrete message and subject list. -/
theorem rreplay_c7_witness :
    process_one_message oracleW [mkSubject "3" "200"]
        ("DONT_INJECT: EVENT: 3 PID: 100 REC_PID: 200" ++ "\n") =
      .ok ([{ (mkSubject "3" "200") with other_procs := ["100"] }], []) := by
  have h := rreplay_c7 oracleW [] [] (mkSubject "3" "200")
    ("DONT_INJECT: EVENT: 3 PID: 100 REC_PID: 200" ++ "\n") "3" "100"
    rfl rfl (by simp) rfl
  simpa using h.1

/-- C3: an `INJECT` message first reads the matched subject's JSON
state file, then rewrites it with the subject record — carrying the pid
taken from the message — embedded under the `config` key, and only
after that write spawns the injector on the state file path: the write
action strictly precedes every spawn action of the message. -/
theorem rreplay_c3 (o : Oracle) (pre rest : List Subject) (s : Subject)
    (msg ev pid : String)
    (hparse : parseMessage msg = .ok ("INJECT", ev, pid))
    (halive : o.alive pid = true)
    (hpre : ∀ x ∈ pre, ¬ x.event = ev) (hs : s.event = ev)
    (hh : s.handle = none) :
    ∃ content acts,
      process_one_message o (pre ++ s :: rest) msg =
        .ok (pre ++ { s with
                pid := some pid
                handle := some (o.injectStatus s.injected_state_file) } :: rest,
             acts)
      ∧ acts = [.fileRead s.injected_state_file,
                .fileWrite s.injected_state_file content,
                .spawn ["inject", "--verbosity=40", s.injected_state_file]]
      ∧ content = JValue.obj (pySetKey "config"
          (subjectToJson { s with pid := some pid })
          (o.stateContents s.injected_state_file))
      ∧ (∃ flds, subjectToJson { s with pid := some pid } = .obj flds
          ∧ ("pid", JValue.str pid) ∈ flds)
      ∧ (∃ iW iS, iW < iS
          ∧ acts.get? iW = some (.fileWrite s.injected_state_file content)
          ∧ acts.get? iS =
              some (.spawn ["inject", "--verbosity=40", s.injected_state_file])
          ∧ ∀ (j : Nat) (cmd : List String),
              acts.get? j = some (.spawn cmd) → iW < j) := by
  refine ⟨JValue.obj (pySetKey "config" (subjectToJson { s with pid := some pid })
      (o.stateContents s.injected_state_file)), _, ?_, rfl, rfl, ?_, ?_⟩
  · unfold process_one_message
    rw [hparse]
    simp only [halive]
    rw [if_neg (show ¬ ¬ True from fun h => h trivial)]
    rw [filter_event_head ev pre rest s hpre hs]
    simp only []
    rw [if_pos trivial, hh]
    rw [if_neg (show ¬ (none : Option Int).isSome = true by decide)]
    rw [updateFirstMatch_append ev
      (fun _ => { s with
        pid := some pid
        handle := some (o.injectStatus s.injected_state_file) })
      pre rest s hpre hs]
  · exact ⟨_, rfl, by simp [subjectToJson]⟩
  · refine ⟨1, 2, by omega, rfl, rfl, ?_⟩
    intro j cmd hj
    match j with
    | 0 => simp [List.get?] at hj
    | 1 => simp [List.get?] at hj
    | 2 => omega
    | n + 3 => simp [List.get?] at hj

/-- Witness for C3 at a concrete message and subject list. -/
theorem rreplay_c3_witness :
    ∃ subjects acts,
      process_one_message oracleW [mkSubject "3" "200"]
          ("INJECT: EVENT: 3 PID: 100 REC_PID: 200" ++ "\n") =
        .ok (subjects, acts)
      ∧ acts.length = 3 := by
  obtain ⟨content, acts, heq, hacts, -, -, -⟩ :=
    rreplay_c3 oracleW [] [] (mkSubject "3" "200")
      ("INJECT: EVENT: 3 PID: 100 REC_PID: 200" ++ "\n") "3" "100"
      rfl rfl (by simp) rfl rfl
  exact ⟨_, acts, by simpa using heq, by rw [hacts]; rfl⟩

/-- C2: the claim says that during supervision every pid in a subject's
`other_procs` receives an unconditional SIGKILL, errors on
already-exited targets being silently tolerated, and supervision then
continues.  The code instead evaluates the debug-format argument
`s['other_procs'][i]` with the pid *string* `i` as a list index, which
raises `TypeError` on the very first iteration: no kill signal is ever
sent and supervision aborts.  This theorem evaluates the supervisor at
the failing input: one subject whose injector exited 0 and whose
`other_procs` is `["100"]` — the visit stops at that subject, the
action trace contains no kill, and `TypeError` propagates. -/
theorem rreplay_c2 :
    wait_on_handles [subjC2] = ([subjC2], [], some PyError.typeError)
    ∧ killOtherProcs ["100"] ["100"] = ([], some PyError.typeError) :=
  ⟨rfl, rfl⟩

/-- C6: `cleanup` is idempotent — it always succeeds, returning the
filesystem stripped of the log and pipe; when both are already absent
it is a no-op; a second call on the result of a first call succeeds and
changes nothing (neither artifact exists any more). -/
theorem rreplay_c6 (fs : Fs) :
    cleanup fs = .ok (cleanupFs fs)
    ∧ (PROC_FILE ∉ fs → RR_PIPE ∉ fs → cleanup fs = .ok fs)
    ∧ PROC_FILE ∉ cleanupFs fs
    ∧ RR_PIPE ∉ cleanupFs fs
    ∧ cleanup (cleanupFs fs) = .ok (cleanupFs fs) := by
  refine ⟨cleanup_eq_ok fs, ?_, not_mem_cleanupFs_proc fs,
    not_mem_cleanupFs_pipe fs, ?_⟩
  · intro h1 h2
    rw [cleanup_eq_ok fs]
    unfold cleanupFs
    rw [filter_ne_eq_self h1, filter_ne_eq_self h2]
  · rw [cleanup_eq_ok (cleanupFs fs), cleanupFs_idem fs]

/-- Witness for C6 at a concrete filesystem that has neither
artifact. -/
theorem rreplay_c6_witness :
    cleanup ["a.txt"] = .ok ["a.txt"]
    ∧ cleanup (cleanupFs ["a.txt"]) = .ok (cleanupFs ["a.txt"]) :=
  ⟨(rreplay_c6 ["a.txt"]).2.1 (by decide) (by decide),
   (rreplay_c6 ["a.txt"]).2.2.2.2⟩

/-- C9: when the pipe reaches end-of-input with at least one byte read
but no newline seen, `get_message` never returns: after every number of
loop iterations the read loop is still running (`getMessageIter` yields
`none` for every fuel), and the structural model records the
divergence. -/
theorem rreplay_c9 (fuel : Nat) (s : List Char) (hne : ¬ s = [])
    (hnl : '\n' ∉ s) :
    getMessageIter fuel [] s = none ∧ get_message s = none :=
  ⟨getMessageIter_stuck fuel [] s hnl (by simp) (Or.inr hne),
   getMessageAux_stuck s [] hnl (by simp) (Or.inr hne)⟩

/-- Witness for C9: a concrete partial final line. -/
theorem rreplay_c9_witness :
    getMessageIter 1000 [] ['p', 'a', 'r', 't'] = none
    ∧ get_message ['p', 'a', 'r', 't'] = none :=
  rreplay_c9 1000 ['p', 'a', 'r', 't'] (by decide) (by decide)

theorem mem_addPath_self (p : String) (fs : Fs) : p ∈ addPath p fs := by
  by_cases h : p ∈ fs <;> simp [addPath, h]

theorem wait_on_handles_visited_prefix (l : List Subject) :
    (wait_on_handles l).1 <+: l := by
  induction l with
  | nil => exact ⟨[], rfl⟩
  | cons s rest ih =>
    unfold wait_on_handles
    rcases hsh : s.handle with _ | code <;>
      simp only [hsh] <;>
      rcases hk : killOtherProcs s.other_procs s.other_procs with ⟨actsKill, _ | e⟩ <;>
      simp only [hk] <;>
      rcases hw : wait_on_handles rest with ⟨v, a, e'⟩
    · rw [hw] at ih
      exact List.cons_prefix_cons.mpr ⟨rfl, ih⟩
    · exact ⟨rest, rfl⟩
    · rw [hw] at ih
      exact List.cons_prefix_cons.mpr ⟨rfl, ih⟩
    · exact ⟨rest, rfl⟩

/-- C4: a successfully loaded configuration yields the subjects sorted
ascending by numeric `event`; the supervisor visits them in exactly
that list order (its visit sequence is a prefix of the list — a prefix
only because an exception can abort it — so the visited events are
ascending); and on permuted inputs with distinct numeric events the
sort result is the same list, so the order is independent of the
configuration input order. -/
theorem rreplay_c4 (readable : Bool) (sections : List IniSection)
    (d : String) (subs : List Subject) (l₁ l₂ : List Subject)
    (hok : get_configuration readable sections = .ok (d, subs))
    (hp : List.Perm l₁ l₂) (hnd : (l₁.map eventKey).Nodup) :
    List.Sorted subjLE subs
    ∧ (wait_on_handles subs).1 <+: subs
    ∧ List.Sorted (fun a b => a ≤ b) ((wait_on_handles subs).1.map eventKey)
    ∧ List.Sorted subjLE (sortSubjects l₁)
    ∧ sortSubjects l₁ = sortSubjects l₂ := by
  have h1 := get_configuration_sorted hok
  have h2 := wait_on_handles_visited_prefix subs
  have h3 : List.Pairwise subjLE (wait_on_handles subs).1 :=
    List.Pairwise.sublist h2.sublist h1
  exact ⟨h1, h2, List.pairwise_map.mpr h3, sortSubjects_sorted l₁,
    sortSubjects_perm_eq l₁ l₂ hp hnd⟩

/-- Witness for C4 at a concrete two-subject configuration given in
descending event order. -/
theorem rreplay_c4_witness :
    ∃ d subs,
      get_configuration true [dirSecW, subjSec "2" "20", subjSec "1" "10"] =
        .ok (d, subs)
      ∧ List.Sorted subjLE subs
      ∧ sortSubjects [mkSubject "2" "20", mkSubject "1" "10"] =
          sortSubjects [mkSubject "1" "10", mkSubject "2" "20"] := by
  have h := rreplay_c4 true [dirSecW, subjSec "2" "20", subjSec "1" "10"]
    "/tmp/rr" (sortSubjects [mkSubject "2" "20", mkSubject "1" "10"])
    [mkSubject "2" "20", mkSubject "1" "10"]
    [mkSubject "1" "10", mkSubject "2" "20"]
    rfl (List.Perm.swap _ _ _) (by decide)
  exact ⟨"/tmp/rr", _, rfl, h.1, h.2.2.2.2⟩

/-- C5: a configuration holding only the directory declaration makes
the program print the no-opportunities report and exit 0 straight from
configuration load: the replay engine is never launched. -/
theorem rreplay_c5 (env : Env) (d : String) (dirSec : IniSection)
    (h1 : env.interruptAt = none) (h2 : env.testDirExists = true)
    (h3 : env.configReadable = true) (h4 : env.sections = [dirSec])
    (h5 : dirSec.get "rr_dir" = some d) :
    runMain env = some
      { exitCode := 0
        dumped := false
        cleanupOnExit := false
        replayLaunched := false
        reportedNoOpp := true
        finalFs := cleanupFs env.fs0 } := by
  simp [runMain, h1, h2, h3, h4, get_configuration, h5]

/-- Witness for C5 at a concrete environment. -/
theorem rreplay_c5_witness :
    runMain envC5W = some
      { exitCode := 0
        dumped := false
        cleanupOnExit := false
        replayLaunched := false
        reportedNoOpp := true
        finalFs := cleanupFs ["stale.txt"] } :=
  rreplay_c5 envC5W "/tmp/rr" dirSecW rfl rfl rfl rfl rfl

/-- C10: a well-formed message whose event matches no configured
subject makes the dispatch loop raise `IndexError` at `operating[0]`;
the error propagates out of `process_messages` to the top-level
catch-all, which runs `cleanup` and exits 1. -/
theorem rreplay_c10 (env : Env) (d : String) (subs : List Subject)
    (msg : String) (rest : List Char) (v ev pid : String)
    (h1 : env.interruptAt = none) (h2 : env.testDirExists = true)
    (hcfg : get_configuration env.configReadable env.sections = .ok (d, subs))
    (hpipe : env.pipeAppears = true)
    (hget : get_message env.stream = some (msg, rest))
    (hmsg : ¬ msg = "")
    (hparse : parseMessage msg = .ok (v, ev, pid))
    (halive : env.oracle.alive pid = true)
    (hnomatch : ∀ s ∈ subs, ¬ s.event = ev) :
    process_one_message env.oracle subs msg = .exc PyError.indexError
    ∧ process_messages env.oracle subs env.stream = .exc PyError.indexError
    ∧ ∃ o, runMain env = some o ∧ o.exitCode = 1 ∧ o.cleanupOnExit = true := by
  have hone : process_one_message env.oracle subs msg = .exc PyError.indexError := by
    unfold process_one_message
    rw [hparse]
    simp only [halive]
    rw [if_neg (show ¬ ¬ True from fun h => h trivial)]
    rw [List.filter_eq_nil_iff.mpr (fun a ha => by simpa using hnomatch a ha)]
  have hpm : process_messages env.oracle subs env.stream = .exc PyError.indexError := by
    rw [process_messages.eq_def]
    split
    · rename_i heq
      rw [heq] at hget
      cases hget
    · rename_i message' rest' heq
      rw [heq] at hget
      injection hget with hpair
      injection hpair with hm' hr'
      subst hm'
      subst hr'
      rw [dif_neg hmsg, hone]
  refine ⟨hone, hpm,
    catchAllHandler (addPath RR_PIPE (addPath PROC_FILE (cleanupFs env.fs0))) true,
    ?_, rfl, rfl⟩
  simp [runMain, h1, h2, hcfg, hpipe, hpm, execute_rr]

/-- Witness for C10 at a concrete environment: event 7 is reported,
only event 3 is configured. -/
theorem rreplay_c10_witness :
    ∃ o, runMain envC10W = some o ∧ o.exitCode = 1 ∧ o.cleanupOnExit = true :=
  (rreplay_c10 envC10W "/tmp/rr" (sortSubjects [mkSubject "3" "200"])
    ("INJECT: EVENT: 7 PID: 100 REC_PID: 200" ++ "\n") [] "INJECT" "7" "100"
    rfl rfl rfl rfl rfl (by decide) rfl rfl (by decide)).2.2

/-- C1 as amended: when the interrupt handler runs while the shared
log `proc.out` exists — which holds from replay launch on — it dumps
the log, runs `cleanup` (leaving neither the log nor the pipe), and
exits 0; when the log does not exist (an interrupt between the
pre-cleanup pass and replay launch) the handler's `open('proc.out')`
raises an uncaught `IOError`: no dump, no cleanup, exit 1.  The third
part instantiates the good case inside the full orchestration: an
interrupt delivered at dispatch exits 0 after dumping and cleaning. -/
theorem rreplay_c1_amended :
    (∀ (fs : Fs) (launched : Bool), "proc.out" ∈ fs →
      interruptHandler fs launched =
        { exitCode := 0
          dumped := true
          cleanupOnExit := true
          replayLaunched := launched
          reportedNoOpp := false
          finalFs := cleanupFs fs }
      ∧ PROC_FILE ∉ cleanupFs fs ∧ RR_PIPE ∉ cleanupFs fs)
    ∧ (∀ (fs : Fs) (launched : Bool), "proc.out" ∉ fs →
      interruptHandler fs launched =
        { exitCode := 1
          dumped := false
          cleanupOnExit := false
          replayLaunched := launched
          reportedNoOpp := false
          finalFs := fs })
    ∧ (∀ (env : Env) (d : String) (subs : List Subject),
        env.interruptAt = some Phase.dispatch → env.testDirExists = true →
        get_configuration env.configReadable env.sections = .ok (d, subs) →
        ∃ o, runMain env = some o ∧ o.exitCode = 0 ∧ o.dumped = true
          ∧ o.cleanupOnExit = true ∧ PROC_FILE ∉ o.finalFs
          ∧ RR_PIPE ∉ o.finalFs) := by
  have hgood : ∀ (fs : Fs) (launched : Bool), "proc.out" ∈ fs →
      interruptHandler fs launched =
        { exitCode := 0
          dumped := true
          cleanupOnExit := true
          replayLaunched := launched
          reportedNoOpp := false
          finalFs := cleanupFs fs } := by
    intro fs launched h
    simp [interruptHandler, h]
  refine ⟨fun fs launched h =>
      ⟨hgood fs launched h, not_mem_cleanupFs_proc fs, not_mem_cleanupFs_pipe fs⟩,
    ?_, ?_⟩
  · intro fs launched h
    simp [interruptHandler, h]
  · intro env d subs hph htd hcfg
    refine ⟨interruptHandler (addPath PROC_FILE (cleanupFs env.fs0)) true, ?_, ?_⟩
    · simp [runMain, hph, htd, hcfg, execute_rr]
    · rw [hgood _ _ (mem_addPath_self PROC_FILE (cleanupFs env.fs0))]
      exact ⟨rfl, rfl, rfl, not_mem_cleanupFs_proc _, not_mem_cleanupFs_pipe _⟩

/-- Witness for the amended C1: the concrete run `envC1ok`, interrupted
at dispatch after the log was created. -/
theorem rreplay_c1_witness :
    ∃ o, runMain envC1ok = some o ∧ o.exitCode = 0 ∧ o.dumped = true
      ∧ o.cleanupOnExit = true ∧ PROC_FILE ∉ o.finalFs ∧ RR_PIPE ∉ o.finalFs :=
  rreplay_c1_amended.2.2 envC1ok "/tmp/rr" (sortSubjects [mkSubject "3" "200"])
    rfl rfl rfl

/-- Counterexample to C1 as stated: the same program interrupted
between the pre-cleanup pass and replay launch (state `LOAD_CONFIG`,
where the claim also asserts dump-cleanup-exit-0) instead exits 1 with
no dump and no cleanup, because the handler's `open('proc.out')`
raises an uncaught `IOError`. -/
theorem rreplay_c1_counterexample :
    runMain envC1bad = some
      { exitCode := 1
        dumped := false
        cleanupOnExit := false
        replayLaunched := false
        reportedNoOpp := false
        finalFs := [] } := rfl

end RReplay
